import Mathlib

/-
Verification of the Kinetic Shape Reconstruction driver
(Kinetic_shape_reconstruction_3.h) and the point-triangle distance fallback
(squared_distance_Point_3_Triangle_3.h) against their natural-language
specification.  The C++ control flow is shallowly embedded: the driver state
is abstract (the Data_structure facade is external to the verified sources),
exact-kernel numbers are modelled as rationals, and process exit is modelled
by short-circuiting in the Except monad.
-/

namespace KSR

/-! ## Control flow of `Kinetic_shape_reconstruction_3::partition` -/

/-- Phases of `partition()` in source order.  `checkIntegrityPhase` stands for
a call to `check_integrity()` (a const check, no state mutation), and
`propagationLoop` stands for the whole `initialize_queue` / `run` loop. -/
inductive Phase where
  | createBoundingBox
  | bboxToPolygons
  | addPolygons
  | checkIntegrityPhase
  | makeIntersectionFree
  | setKIntersections
  | checkBbox
  | propagationLoop
deriving DecidableEq

/-- Driver execution state: the abstract `m_data` contents together with a log
of the phases executed so far. -/
structure Exec (σ : Type) where
  data : σ
  log : List Phase
deriving DecidableEq

/-- Execute one phase of `partition()`: apply its effect on `m_data` and log it. -/
def runStep {σ : Type} (p : Phase) (f : σ → σ) (e : Exec σ) : Exec σ :=
  Exec.mk (f e.data) (e.log ++ [p])

/-- A call to `exit(EXIT_SUCCESS)`: terminates the whole process, carrying the
state at the moment of termination.  Modelled as the error case of `Except`,
so that everything sequenced after it is skipped. -/
def exitProcess {σ α : Type} (e : Exec σ) : Except (Exec σ) α :=
  Except.error e

/-- Shallow embedding of `partition()` (Kinetic_shape_reconstruction_3.h,
lines 88-204).  The subroutines that mutate `m_data`
(`add_polygons`, `make_polygons_intersection_free`, `set_k_intersections`,
and the whole propagation loop body) are taken as opaque parameters, since
the Data_structure facade is outside the verified sources; `create_bounding_box`
and `bounding_box_to_polygons` only write local variables and
`check_integrity` / `check_bbox` are const checks, so those phases carry no
state change.  A normal return yields `Except.ok (returnValue, state)`; a
process exit yields `Except.error state`. -/
def partition {σ : Type}
    (addPolygonsFn makeIntersectionFreeFn setKIntersectionsFn propagationFn : σ → σ)
    (inputSize : Nat) (k : Nat) (enlargeBboxRatio : ℚ) (e : Exec σ) :
    Except (Exec σ) (Bool × Exec σ) :=
  if inputSize = 0 then Except.ok (false, e)
  else if k = 0 then Except.ok (false, e)
  else if enlargeBboxRatio < 1 then Except.ok (false, e)
  else
    let e1 := runStep Phase.createBoundingBox id e
    let e2 := runStep Phase.bboxToPolygons id e1
    let e3 := runStep Phase.addPolygons addPolygonsFn e2
    let e4 := runStep Phase.checkIntegrityPhase id e3
    let e5 := runStep Phase.makeIntersectionFree makeIntersectionFreeFn e4
    let e6 := runStep Phase.checkIntegrityPhase id e5
    let e7 := runStep Phase.setKIntersections setKIntersectionsFn e6
    let e8 := runStep Phase.checkBbox id e7
    (exitProcess e8 : Except (Exec σ) Unit).bind (fun _ =>
      let e9 := runStep Phase.propagationLoop propagationFn e8
      let e10 := runStep Phase.checkIntegrityPhase id e9
      Except.ok (true, e10))

/-- Claim C1: with a non-empty input range, `k ≥ 1` and `enlarge_bbox_ratio ≥ 1`,
`partition()` unconditionally terminates the process via `exit` right after the
intersection-free preprocessing (`make_polygons_intersection_free`, the
integrity checks and `set_k_intersections`); the propagation loop is never
executed and `return true` is never reached. -/
theorem partition_exits_before_propagation {σ : Type}
    (addPolygonsFn makeIntersectionFreeFn setKIntersectionsFn propagationFn : σ → σ)
    (inputSize k : Nat) (enlargeBboxRatio : ℚ) (d : σ)
    (hin : 0 < inputSize) (hk : 1 ≤ k) (hr : 1 ≤ enlargeBboxRatio) :
    ∃ efinal : Exec σ,
      partition addPolygonsFn makeIntersectionFreeFn setKIntersectionsFn propagationFn
          inputSize k enlargeBboxRatio (Exec.mk d []) = Except.error efinal
      ∧ efinal.log = [Phase.createBoundingBox, Phase.bboxToPolygons, Phase.addPolygons,
          Phase.checkIntegrityPhase, Phase.makeIntersectionFree, Phase.checkIntegrityPhase,
          Phase.setKIntersections, Phase.checkBbox]
      ∧ Phase.propagationLoop ∉ efinal.log
      ∧ efinal.data = setKIntersectionsFn (makeIntersectionFreeFn (addPolygonsFn d))
      ∧ ∀ r, partition addPolygonsFn makeIntersectionFreeFn setKIntersectionsFn propagationFn
          inputSize k enlargeBboxRatio (Exec.mk d []) ≠ Except.ok r := by
  have h1 : ¬ inputSize = 0 := by omega
  have h2 : ¬ k = 0 := by omega
  have h3 : ¬ enlargeBboxRatio < 1 := not_lt.mpr hr
  refine ⟨Exec.mk (setKIntersectionsFn (makeIntersectionFreeFn (addPolygonsFn d)))
      [Phase.createBoundingBox, Phase.bboxToPolygons, Phase.addPolygons,
       Phase.checkIntegrityPhase, Phase.makeIntersectionFree, Phase.checkIntegrityPhase,
       Phase.setKIntersections, Phase.checkBbox], ?_, rfl, ?_, rfl, ?_⟩
  · simp [partition, h1, h2, h3, runStep, exitProcess, Except.bind]
  · show Phase.propagationLoop ∉ [Phase.createBoundingBox, Phase.bboxToPolygons,
      Phase.addPolygons, Phase.checkIntegrityPhase, Phase.makeIntersectionFree,
      Phase.checkIntegrityPhase, Phase.setKIntersections, Phase.checkBbox]
    decide
  · intro r hc
    simp [partition, h1, h2, h3, runStep, exitProcess, Except.bind] at hc

/-- Witness for C1 at a concrete instance. -/
theorem partition_exits_before_propagation_witness :
    ∃ efinal : Exec Nat,
      partition id id id id 1 1 2 (Exec.mk 0 []) = Except.error efinal
      ∧ efinal.log = [Phase.createBoundingBox, Phase.bboxToPolygons, Phase.addPolygons,
          Phase.checkIntegrityPhase, Phase.makeIntersectionFree, Phase.checkIntegrityPhase,
          Phase.setKIntersections, Phase.checkBbox]
      ∧ Phase.propagationLoop ∉ efinal.log
      ∧ efinal.data = id (id (id 0))
      ∧ ∀ r, partition id id id id 1 1 2 (Exec.mk 0 []) ≠ Except.ok r :=
  partition_exits_before_propagation id id id id 1 1 2 0
    (by decide) (by decide) (by norm_num)

/-- Claim C2: calling `partition()` with `k = 0` (likewise with an empty input
range or with `enlarge_bbox_ratio < 1`) returns `false` normally (no throw, no
exit) and leaves the internal state untouched; in particular any observation of
the state, such as `number_of_support_planes()`, is unchanged. -/
theorem partition_invalid_input_returns_false_unchanged {σ : Type}
    (addPolygonsFn makeIntersectionFreeFn setKIntersectionsFn propagationFn : σ → σ)
    (inputSize k : Nat) (enlargeBboxRatio : ℚ) (e : Exec σ)
    (h : inputSize = 0 ∨ k = 0 ∨ enlargeBboxRatio < 1) :
    ∃ eAfter : Exec σ,
      partition addPolygonsFn makeIntersectionFreeFn setKIntersectionsFn propagationFn
          inputSize k enlargeBboxRatio e = Except.ok (false, eAfter)
      ∧ eAfter = e
      ∧ ∀ numberOfSupportPlanes : σ → Nat,
          numberOfSupportPlanes eAfter.data = numberOfSupportPlanes e.data := by
  refine ⟨e, ?_, rfl, fun _ => rfl⟩
  rcases h with h | h | h
  · simp [partition, h]
  · by_cases h0 : inputSize = 0
    · simp [partition, h0]
    · simp [partition, h0, h]
  · by_cases h0 : inputSize = 0
    · simp [partition, h0]
    · by_cases hk0 : k = 0
      · simp [partition, h0, hk0]
      · simp [partition, h0, hk0, h]

/-- Witness for C2 at a concrete instance (`k = 0`, fresh driver state). -/
theorem partition_invalid_input_returns_false_unchanged_witness :
    ∃ eAfter : Exec Nat,
      partition id id id id 5 0 2 (Exec.mk 0 []) = Except.ok (false, eAfter)
      ∧ eAfter = Exec.mk 0 []
      ∧ ∀ numberOfSupportPlanes : Nat → Nat,
          numberOfSupportPlanes eAfter.data = numberOfSupportPlanes (Exec.mk 0 ([] : List Phase)).data :=
  partition_invalid_input_returns_false_unchanged id id id id 5 0 2 (Exec.mk 0 [])
    (Or.inr (Or.inl rfl))

/-! ## Stop/continue policy of `apply` for `pvertex_to_iedge` events -/

/-- Data-structure call made by the `pvertex_to_iedge` branch once the
stop/continue decision is taken. -/
inductive PolyAction where
  | cropPolygon
  | propagatePolygon
deriving DecidableEq

/-- Result of the single-vertex `pvertex_to_iedge` handling in `apply`
(lines 915-958): the stop flag, the face budget `k(pface)` after the branch,
the mutating call that follows, how many vertices get their events recomputed,
and whether the trailing `CGAL_assertion(m_data.k(pface) >= 1)` holds. -/
structure SingleStep where
  stop : Bool
  kAfter : Nat
  action : PolyAction
  recomputed : Nat
  assertionHolds : Bool
deriving DecidableEq

/-- Shallow embedding of the single-vertex `pvertex_to_iedge` branch of
`apply` (lines 915-958): the `if / else if` chain on `bbox_reached`,
`collision && k == 1` and `collision && k > 1`, the decrement of `k(pface)`,
the assertion `k(pface) >= 1`, and the final dispatch to `crop_polygon`
(one new vertex, events recomputed for 2 vertices) or `propagate_polygon`
(three new vertices, events recomputed for them). -/
def applySingleVertex (collision bboxReached : Bool) (k : Nat) : SingleStep :=
  let stopAndK : Bool × Nat :=
    if bboxReached = true then (true, k)
    else if collision = true ∧ k = 1 then (true, k)
    else if collision = true ∧ 1 < k then (false, k - 1)
    else (false, k)
  SingleStep.mk stopAndK.1 stopAndK.2
    (if stopAndK.1 then PolyAction.cropPolygon else PolyAction.propagatePolygon)
    (if stopAndK.1 then 2 else 3)
    (decide (1 ≤ stopAndK.2))

/-- Claim C3: the single-vertex `pvertex_to_iedge` stop/continue policy.
If the bounding box is reached the polygon stops via `crop_polygon` (no
propagation, no budget change); else if a collision occurred and `k = 1` it
stops via `crop_polygon`; else if a collision occurred and `k > 1` the budget
is decremented by exactly one and the polygon continues via
`propagate_polygon`; else (no collision) it continues with the budget
untouched. -/
theorem apply_single_vertex_stop_continue_policy (collision bboxReached : Bool) (k : Nat) :
    (bboxReached = true →
      (applySingleVertex collision bboxReached k).stop = true
      ∧ (applySingleVertex collision bboxReached k).action = PolyAction.cropPolygon
      ∧ (applySingleVertex collision bboxReached k).kAfter = k)
    ∧ (bboxReached = false → collision = true → k = 1 →
      (applySingleVertex collision bboxReached k).stop = true
      ∧ (applySingleVertex collision bboxReached k).action = PolyAction.cropPolygon
      ∧ (applySingleVertex collision bboxReached k).kAfter = k)
    ∧ (bboxReached = false → collision = true → 1 < k →
      (applySingleVertex collision bboxReached k).stop = false
      ∧ (applySingleVertex collision bboxReached k).action = PolyAction.propagatePolygon
      ∧ (applySingleVertex collision bboxReached k).kAfter = k - 1)
    ∧ (bboxReached = false → collision = false →
      (applySingleVertex collision bboxReached k).stop = false
      ∧ (applySingleVertex collision bboxReached k).action = PolyAction.propagatePolygon
      ∧ (applySingleVertex collision bboxReached k).kAfter = k) := by
  refine ⟨?_, ?_, ?_, ?_⟩
  · intro hb
    subst hb
    simp [applySingleVertex]
  · intro hb hc hk
    subst hb; subst hc; subst hk
    simp [applySingleVertex]
  · intro hb hc hk
    subst hb; subst hc
    have hk1 : ¬ (True ∧ k = 1) := by omega
    simp only [applySingleVertex]
    simp [hk1, hk]
  · intro hb hc
    subst hb; subst hc
    simp [applySingleVertex]

/-- Witness for C3: the policy theorem applied at concrete inputs covering a
continue-with-decrement case and a bbox-stop case. -/
theorem apply_single_vertex_stop_continue_policy_witness :
    ((applySingleVertex true false 2).stop = false
      ∧ (applySingleVertex true false 2).action = PolyAction.propagatePolygon
      ∧ (applySingleVertex true false 2).kAfter = 1)
    ∧ ((applySingleVertex false true 3).stop = true
      ∧ (applySingleVertex false true 3).action = PolyAction.cropPolygon
      ∧ (applySingleVertex false true 3).kAfter = 3) :=
  ⟨(apply_single_vertex_stop_continue_policy true false 2).2.2.1 rfl rfl (by decide),
   (apply_single_vertex_stop_continue_policy false true 3).1 rfl⟩

/-! ## The face budget `k` over a whole simulation -/

/-- The two `pvertex_to_iedge` shapes of `apply` that touch a face budget:
the single-vertex branch (lines 915-958) and the two-vertex simultaneous
crossing branch (lines 847-912). -/
inductive KEventKind where
  | single (collision bboxReached : Bool)
  | double (collision collisionOther bboxReached bboxReachedOther : Bool)
deriving DecidableEq

/-- Effect of one applied event on the budget `k(pface)` of the face it
touches, read off the `if / else if` chains of `apply`. -/
def kEventUpdate : KEventKind → Nat → Nat
  | KEventKind.single collision bboxReached, k =>
      (applySingleVertex collision bboxReached k).kAfter
  | KEventKind.double collision collisionOther bboxReached bboxReachedOther, k =>
      if bboxReached = true then k
      else if bboxReachedOther = true then k
      else if (collision = true ∨ collisionOther = true) ∧ k = 1 then k
      else if (collision = true ∨ collisionOther = true) ∧ 1 < k then k - 1
      else k

/-- `set_k_intersections(k)` (lines 542-549): assign the budget `k` to every
pface of every support plane. -/
def set_k_intersections (k : Nat) (faces : List Nat) : List Nat :=
  faces.map (fun _ => k)

/-- Update the budget of the face at a given index, leaving the others alone. -/
def modifyFace : Nat → (Nat → Nat) → List Nat → List Nat
  | _, _, [] => []
  | 0, f, x :: xs => f x :: xs
  | Nat.succ i, f, x :: xs => x :: modifyFace i f xs

/-- Run a sequence of events, each updating the budget of one face. -/
def applyKEvents : List (Nat × KEventKind) → List Nat → List Nat
  | [], s => s
  | (i, e) :: rest, s => applyKEvents rest (modifyFace i (kEventUpdate e) s)

theorem kEventUpdate_eq_or_decrement (e : KEventKind) (k : Nat) :
    kEventUpdate e k = k ∨ (1 < k ∧ kEventUpdate e k = k - 1) := by
  rcases e with ⟨c, b⟩ | ⟨c, c2, b, b2⟩
  · dsimp [kEventUpdate, applySingleVertex]
    split_ifs with h1 h2 h3
    · left; rfl
    · left; rfl
    · right; exact ⟨h3.2, rfl⟩
    · left; rfl
  · dsimp [kEventUpdate]
    split_ifs with h1 h2 h3 h4
    · left; rfl
    · left; rfl
    · left; rfl
    · right; exact ⟨h4.2, rfl⟩
    · left; rfl

theorem kEventUpdate_le (e : KEventKind) (k : Nat) : kEventUpdate e k ≤ k := by
  rcases kEventUpdate_eq_or_decrement e k with h | ⟨h1, h2⟩ <;> omega

theorem kEventUpdate_pos (e : KEventKind) (k : Nat) (hk : 1 ≤ k) :
    1 ≤ kEventUpdate e k := by
  rcases kEventUpdate_eq_or_decrement e k with h | ⟨h1, h2⟩ <;> omega

theorem mem_modifyFace {P : Nat → Prop} (f : Nat → Nat) (hf : ∀ y, P y → P (f y)) :
    ∀ (i : Nat) (s : List Nat), (∀ y ∈ s, P y) → ∀ x ∈ modifyFace i f s, P x := by
  intro i
  induction i with
  | zero =>
    intro s hs x hx
    cases s with
    | nil => cases hx
    | cons a as =>
      simp only [modifyFace] at hx
      rcases List.mem_cons.mp hx with rfl | hx
      · exact hf a (hs a (List.mem_cons_self a as))
      · exact hs x (List.mem_cons_of_mem a hx)
  | succ j ih =>
    intro s hs x hx
    cases s with
    | nil => cases hx
    | cons a as =>
      simp only [modifyFace] at hx
      rcases List.mem_cons.mp hx with h | hx
      · exact h ▸ hs a (List.mem_cons_self a as)
      · exact ih as (fun y hy => hs y (List.mem_cons_of_mem a hy)) x hx

theorem mem_applyKEvents {P : Nat → Prop} (hP : ∀ e y, P y → P (kEventUpdate e y)) :
    ∀ (events : List (Nat × KEventKind)) (s : List Nat), (∀ y ∈ s, P y) →
      ∀ x ∈ applyKEvents events s, P x := by
  intro events
  induction events with
  | nil => intro s hs x hx; exact hs x hx
  | cons ev rest ih =>
    intro s hs x hx
    exact ih (modifyFace ev.1 (kEventUpdate ev.2) s)
      (mem_modifyFace (kEventUpdate ev.2) (hP ev.2) ev.1 s hs) x hx

theorem applyKEvents_append (a b : List (Nat × KEventKind)) (s : List Nat) :
    applyKEvents (a ++ b) s = applyKEvents b (applyKEvents a s) := by
  induction a generalizing s with
  | nil => rfl
  | cons ev rest ih => simp [applyKEvents, ih]

theorem getD_modifyFace_le (f : Nat → Nat) (hf : ∀ y, f y ≤ y) :
    ∀ (i : Nat) (s : List Nat) (j : Nat),
      (modifyFace i f s).getD j 0 ≤ s.getD j 0 := by
  intro i
  induction i with
  | zero =>
    intro s j
    cases s with
    | nil => simp [modifyFace]
    | cons a as =>
      cases j with
      | zero => exact hf a
      | succ m => simp [modifyFace]
  | succ n ih =>
    intro s j
    cases s with
    | nil => simp [modifyFace]
    | cons a as =>
      cases j with
      | zero => simp [modifyFace]
      | succ m => simpa [modifyFace] using ih as m

/-- Claim C5: after `set_k_intersections(k_initial)` every face budget equals
`k_initial`, and along any sequence of applied events every face budget stays
in `[1, k_initial]` and is non-increasing step by step; the only mutation an
event performs is a decrement by exactly one, taken only when the budget
exceeds one, and the trailing `CGAL_assertion(k(pface) >= 1)` of `apply` holds
whenever the budget was at least one. -/
theorem k_budget_invariant (kInit : Nat) (hkInit : 1 ≤ kInit) (faces : List Nat)
    (events : List (Nat × KEventKind)) :
    (∀ e k, kEventUpdate e k = k ∨ (1 < k ∧ kEventUpdate e k = k - 1))
    ∧ (∀ x ∈ set_k_intersections kInit faces, x = kInit)
    ∧ (∀ x ∈ applyKEvents events (set_k_intersections kInit faces), 1 ≤ x ∧ x ≤ kInit)
    ∧ (∀ (pre : List (Nat × KEventKind)) (ev : Nat × KEventKind) (j : Nat),
        (applyKEvents (pre ++ [ev]) (set_k_intersections kInit faces)).getD j 0
          ≤ (applyKEvents pre (set_k_intersections kInit faces)).getD j 0)
    ∧ (∀ collision bboxReached k, 1 ≤ k →
        (applySingleVertex collision bboxReached k).assertionHolds = true) := by
  refine ⟨kEventUpdate_eq_or_decrement, ?_, ?_, ?_, ?_⟩
  · intro x hx
    rcases List.mem_map.mp hx with ⟨y, _, rfl⟩
    rfl
  · refine mem_applyKEvents ?_ events (set_k_intersections kInit faces) ?_
    · intro e y hy
      exact ⟨kEventUpdate_pos e y hy.1, le_trans (kEventUpdate_le e y) hy.2⟩
    · intro y hy
      rcases List.mem_map.mp hy with ⟨z, _, rfl⟩
      exact ⟨hkInit, le_refl kInit⟩
  · intro pre ev j
    rw [applyKEvents_append]
    exact getD_modifyFace_le (kEventUpdate ev.2) (kEventUpdate_le ev.2) ev.1 _ j
  · intro collision bboxReached k hk
    have h := kEventUpdate_pos (KEventKind.single collision bboxReached) k hk
    dsimp [kEventUpdate] at h
    have h2 : (applySingleVertex collision bboxReached k).assertionHolds
        = decide (1 ≤ (applySingleVertex collision bboxReached k).kAfter) := rfl
    rw [h2]
    exact decide_eq_true h

/-- Witness for C5 at a concrete instance: two faces with budget 2, one
colliding crossing decrements the first face to 1. -/
theorem k_budget_invariant_witness :
    ((∀ e k, kEventUpdate e k = k ∨ (1 < k ∧ kEventUpdate e k = k - 1))
    ∧ (∀ x ∈ set_k_intersections 2 [0, 3], x = 2)
    ∧ (∀ x ∈ applyKEvents [(0, KEventKind.single true false)] (set_k_intersections 2 [0, 3]),
        1 ≤ x ∧ x ≤ 2)
    ∧ (∀ (pre : List (Nat × KEventKind)) (ev : Nat × KEventKind) (j : Nat),
        (applyKEvents (pre ++ [ev]) (set_k_intersections 2 [0, 3])).getD j 0
          ≤ (applyKEvents pre (set_k_intersections 2 [0, 3])).getD j 0)
    ∧ (∀ collision bboxReached k, 1 ≤ k →
        (applySingleVertex collision bboxReached k).assertionHolds = true))
    ∧ applyKEvents [(0, KEventKind.single true false)] (set_k_intersections 2 [0, 3]) = [1, 2] :=
  ⟨k_budget_invariant 2 (by decide) [0, 3] [(0, KEventKind.single true false)], by decide⟩

/-! ## 2D geometry for event computation (exact-kernel numbers as rationals) -/

/-- A 2D point in a support plane's local frame. -/
structure Point2 where
  x : ℚ
  y : ℚ
deriving DecidableEq

/-- A 2D vector. -/
structure Vector2 where
  x : ℚ
  y : ℚ
deriving DecidableEq

/-- A 2D segment given by source and target. -/
structure Segment2 where
  source : Point2
  target : Point2
deriving DecidableEq

/-- `Segment_2::to_vector()`. -/
def segToVector (s : Segment2) : Vector2 :=
  Vector2.mk (s.target.x - s.source.x) (s.target.y - s.source.y)

/-- `Vector_2(a, b)`: the vector from `a` to `b`. -/
def vectorBetween (a b : Point2) : Vector2 :=
  Vector2.mk (b.x - a.x) (b.y - a.y)

/-- Scalar product of 2D vectors (`operator*` on `Vector_2`). -/
def dot2 (u v : Vector2) : ℚ :=
  u.x * v.x + u.y * v.y

/-- `CGAL::squared_distance` of two 2D points. -/
def squaredDistance2 (a b : Point2) : ℚ :=
  (b.x - a.x) ^ 2 + (b.y - a.y) ^ 2

/-- An axis-aligned 2D bounding box (`CGAL::Bbox_2`). -/
structure Bbox2 where
  xmin : ℚ
  xmax : ℚ
  ymin : ℚ
  ymax : ℚ
deriving DecidableEq

/-- `Segment_2::bbox()`. -/
def segBbox (s : Segment2) : Bbox2 :=
  Bbox2.mk (min s.source.x s.target.x) (max s.source.x s.target.x)
    (min s.source.y s.target.y) (max s.source.y s.target.y)

/-- `CGAL::do_overlap` on 2D boxes: the closed boxes intersect. -/
def doOverlap (a b : Bbox2) : Bool :=
  decide (a.xmin ≤ b.xmax ∧ b.xmin ≤ a.xmax ∧ a.ymin ≤ b.ymax ∧ b.ymin ≤ a.ymax)

/-! ## `compute_events_of_vertex` -/

/-- An entry of the Event Queue, tagged by the three collision kinds of
`KSR_3::Event` with participants (as stable ids) and the event time. -/
inductive KsrEvent where
  | pvertexToPVertex (pvertex pother : Nat) (time : ℚ)
  | pvertexToIVertex (pvertex ivertex : Nat) (time : ℚ)
  | pvertexToIEdge (pvertex iedge : Nat) (time : ℚ)
deriving DecidableEq

/-- Snapshot of a prev/next polygon-boundary neighbor of a constrained vertex:
nullity, activity, constraint status and its positions at the two window ends. -/
structure NeighborData where
  id : Nat
  isNull : Bool
  active : Bool
  hasIEdge : Bool
  posMin : Point2
  posMax : Point2
deriving DecidableEq

/-- Snapshot of an endpoint IVertex of the IEdge a constrained vertex slides
along: its activity and its 2D position in the vertex's support plane. -/
structure IVertexEnd where
  id : Nat
  active : Bool
  pos2 : Point2
deriving DecidableEq

/-- Snapshot of one IEdge of the support plane, as precomputed by
`init_search_structures`: activity and its 2D segment. -/
structure IEdgeData where
  id : Nat
  active : Bool
  seg : Segment2
deriving DecidableEq

/-- Snapshot of the moving PVertex and its surroundings, as read by
`compute_events_of_vertex`: frozen/constrained status, positions at
`m_min_time` and `m_max_time`, scalar speed, the time window, the two
boundary neighbors, the constraint IEdge ids of those neighbors (used by the
free branch to skip their edges), and the two endpoint IVertices of the
vertex's own IEdge. -/
structure PVertexEnv where
  id : Nat
  frozen : Bool
  hasIEdge : Bool
  posMin : Point2
  posMax : Point2
  speed : ℚ
  minTime : ℚ
  maxTime : ℚ
  prev : NeighborData
  next : NeighborData
  prevIEdgeId : Option Nat
  nextIEdgeId : Option Nat
  iedgeSource : IVertexEnd
  iedgeTarget : IVertexEnd
deriving DecidableEq

/-- Loop body over `{prev, next}` for a constrained vertex (lines 624-649):
skip null, inactive or constrained neighbors, reject by bounding box, 2D
intersect the two motion segments, and schedule a `pvertex_to_pvertex` event
at `m_min_time + dist/speed`.  The 2D segment intersection (`KSR::intersection`)
and the square root (`CGAL::approximate_sqrt`) are kernel primitives outside
the verified sources and are taken as parameters. -/
def neighborEvent (interFn : Segment2 → Segment2 → Option Point2) (sqrtFn : ℚ → ℚ)
    (env : PVertexEnv) (n : NeighborData) : Option KsrEvent :=
  if n.isNull = true ∨ n.active = false ∨ n.hasIEdge = true then none
  else
    let sv := Segment2.mk env.posMin env.posMax
    let so := Segment2.mk n.posMin n.posMax
    if doOverlap (segBbox sv) (segBbox so) = false then none
    else
      match interFn sv so with
      | none => none
      | some point =>
        let dist := sqrtFn (squaredDistance2 sv.source point)
        let time := dist / env.speed
        some (KsrEvent.pvertexToPVertex env.id n.id (env.minTime + time))

/-- Loop body over the two endpoint IVertices of the constrained vertex's
IEdge (lines 653-670): skip inactive endpoints, skip endpoints the motion
points away from (negative scalar product), and schedule a
`pvertex_to_ivertex` event when the arrival time is within the window. -/
def ivertexEvent (sqrtFn : ℚ → ℚ) (env : PVertexEnv) (iv : IVertexEnd) : Option KsrEvent :=
  if iv.active = false then none
  else
    let sv := Segment2.mk env.posMin env.posMax
    if dot2 (segToVector sv) (vectorBetween sv.source iv.pos2) < 0 then none
    else
      let dist := sqrtFn (squaredDistance2 sv.source iv.pos2)
      let time := dist / env.speed
      if time < env.maxTime - env.minTime then
        some (KsrEvent.pvertexToIVertex env.id iv.id (env.minTime + time))
      else none

/-- Loop body over the support plane's IEdges for a free vertex
(lines 678-702): skip the edges owned by the two neighbors, skip inactive
edges, reject by bounding box, 2D intersect the motion segment with the edge
segment, and schedule a `pvertex_to_iedge` event at `m_min_time + dist/speed`. -/
def iedgeEvent (interFn : Segment2 → Segment2 → Option Point2) (sqrtFn : ℚ → ℚ)
    (env : PVertexEnv) (ie : IEdgeData) : Option KsrEvent :=
  if env.prevIEdgeId = some ie.id ∨ env.nextIEdgeId = some ie.id then none
  else if ie.active = false then none
  else
    let sv := Segment2.mk env.posMin env.posMax
    if doOverlap (segBbox sv) (segBbox ie.seg) = false then none
    else
      match interFn sv ie.seg with
      | none => none
      | some point =>
        let dist := sqrtFn (squaredDistance2 env.posMin point)
        let time := dist / env.speed
        some (KsrEvent.pvertexToIEdge env.id ie.id (env.minTime + time))

/-- Shallow embedding of `compute_events_of_vertex` (lines 599-705): a frozen
vertex yields `false` and no events; otherwise the constrained branch scans
the two boundary neighbors and the two endpoint IVertices while the free
branch scans all IEdges of the plane, and the function returns `true`.  The
returned list is the batch of events pushed onto the Event Queue. -/
def compute_events_of_vertex (interFn : Segment2 → Segment2 → Option Point2)
    (sqrtFn : ℚ → ℚ) (env : PVertexEnv) (iedges : List IEdgeData) :
    Bool × List KsrEvent :=
  if env.frozen = true then (false, [])
  else if env.hasIEdge = true then
    (true, [env.prev, env.next].filterMap (neighborEvent interFn sqrtFn env)
      ++ [env.iedgeSource, env.iedgeTarget].filterMap (ivertexEvent sqrtFn env))
  else
    (true, iedges.filterMap (iedgeEvent interFn sqrtFn env))

/-- Per-plane pass of `initialize_queue` (lines 559-569): fold
`compute_events_of_vertex` over the plane's pvertices, OR-ing the returned
flags into `still_running` and accumulating the pushed events. -/
def seed_queue_for_plane (interFn : Segment2 → Segment2 → Option Point2)
    (sqrtFn : ℚ → ℚ) (iedges : List IEdgeData) (pvertices : List PVertexEnv) :
    Bool × List KsrEvent :=
  pvertices.foldl (fun acc v =>
    let r := compute_events_of_vertex interFn sqrtFn v iedges
    (acc.1 || r.1, acc.2 ++ r.2)) (false, [])

/-- Claim C6: for a constrained vertex, an endpoint IVertex of its IEdge gets
a `pvertex_to_ivertex` event exactly when the endpoint is active, the motion
points toward it (non-negative scalar product) and the arrival time
`dist/speed` is strictly below the window length, and the scheduled time is
`m_min_time + dist/speed`; in the constrained branch the pushed events are
the neighbor events followed by exactly these endpoint events. -/
theorem constrained_vertex_ivertex_event_characterization
    (interFn : Segment2 → Segment2 → Option Point2) (sqrtFn : ℚ → ℚ)
    (env : PVertexEnv) (iedges : List IEdgeData) (iv : IVertexEnd) :
    (ivertexEvent sqrtFn env iv =
      if iv.active = true
          ∧ 0 ≤ dot2 (segToVector (Segment2.mk env.posMin env.posMax))
              (vectorBetween env.posMin iv.pos2)
          ∧ sqrtFn (squaredDistance2 env.posMin iv.pos2) / env.speed
              < env.maxTime - env.minTime
      then some (KsrEvent.pvertexToIVertex env.id iv.id
          (env.minTime + sqrtFn (squaredDistance2 env.posMin iv.pos2) / env.speed))
      else none)
    ∧ (env.frozen = false → env.hasIEdge = true →
        (compute_events_of_vertex interFn sqrtFn env iedges).2 =
          [env.prev, env.next].filterMap (neighborEvent interFn sqrtFn env)
            ++ [env.iedgeSource, env.iedgeTarget].filterMap (ivertexEvent sqrtFn env)) := by
  constructor
  · cases hA : iv.active
    · simp [ivertexEvent, hA]
    · by_cases hd : dot2 (segToVector (Segment2.mk env.posMin env.posMax))
          (vectorBetween env.posMin iv.pos2) < 0
      · have hd2 : ¬ 0 ≤ dot2 (segToVector (Segment2.mk env.posMin env.posMax))
            (vectorBetween env.posMin iv.pos2) := not_le.mpr hd
        simp [ivertexEvent, hA, hd, hd2]
      · have hd2 : 0 ≤ dot2 (segToVector (Segment2.mk env.posMin env.posMax))
            (vectorBetween env.posMin iv.pos2) := le_of_not_lt hd
        by_cases ht : sqrtFn (squaredDistance2 env.posMin iv.pos2) / env.speed
            < env.maxTime - env.minTime
        · simp [ivertexEvent, hA, hd, hd2, ht]
        · simp [ivertexEvent, hA, hd, hd2, ht]
  · intro hf hc
    simp [compute_events_of_vertex, hf, hc]

/-- Neighbor fixture: an inactive boundary neighbor. -/
def nbInactive : NeighborData :=
  NeighborData.mk 5 false false false (Point2.mk 0 0) (Point2.mk 0 0)

/-- Fixture: an active endpoint IVertex one unit ahead of the motion start. -/
def ivActive : IVertexEnd :=
  IVertexEnd.mk 7 true (Point2.mk 1 0)

/-- Fixture: an inactive endpoint IVertex. -/
def ivInactive : IVertexEnd :=
  IVertexEnd.mk 8 false (Point2.mk 9 0)

/-- Fixture: a constrained, unfrozen vertex moving right at unit speed in the
window `[0, 2]`, with inactive neighbors, one active and one inactive IEdge
endpoint. -/
def envC6 : PVertexEnv :=
  PVertexEnv.mk 3 false true (Point2.mk 0 0) (Point2.mk 1 0) 1 0 2
    nbInactive nbInactive none none ivActive ivInactive

/-- Witness for C6: the characterization applied at the fixture; the active
endpoint at distance 1 and speed 1 yields an event at time `0 + 1`. -/
theorem constrained_vertex_ivertex_event_characterization_witness :
    ivertexEvent (fun q => q) envC6 ivActive = some (KsrEvent.pvertexToIVertex 3 7 1)
    ∧ (compute_events_of_vertex (fun _ _ => none) (fun q => q) envC6 []).2
        = [KsrEvent.pvertexToIVertex 3 7 1] := by
  have h := constrained_vertex_ivertex_event_characterization
    (fun _ _ => none) (fun q => q) envC6 [] ivActive
  refine ⟨?_, ?_⟩
  · rw [h.1]
    norm_num [envC6, ivActive, dot2, segToVector, vectorBetween, squaredDistance2]
  · rw [h.2 rfl rfl]
    have e1 : neighborEvent (fun _ _ => none) (fun q => q) envC6 nbInactive = none := by
      norm_num [neighborEvent, nbInactive]
    have e3 : ivertexEvent (fun q => q) envC6 ivActive
        = some (KsrEvent.pvertexToIVertex 3 7 1) := by
      rw [h.1]
      norm_num [envC6, ivActive, dot2, segToVector, vectorBetween, squaredDistance2]
    have e4 : ivertexEvent (fun q => q) envC6 ivInactive = none := by
      norm_num [ivertexEvent, ivInactive]
    show List.filterMap (neighborEvent (fun _ _ => none) (fun q => q) envC6)
        [nbInactive, nbInactive]
      ++ List.filterMap (ivertexEvent (fun q => q) envC6) [ivActive, ivInactive]
      = [KsrEvent.pvertexToIVertex 3 7 1]
    simp [e1, e3, e4]

/-- Fixture for C4: a constrained, unfrozen vertex whose neighbors are
inactive and whose IEdge endpoints are both inactive, so no event can be
scheduled. -/
def envC4 : PVertexEnv :=
  PVertexEnv.mk 2 false true (Point2.mk 0 0) (Point2.mk 1 0) 1 0 1
    nbInactive nbInactive none none ivInactive ivInactive

/-- Counterexample to claim C4 as stated: `compute_events_of_vertex` returns
`true` here although no event at all was found or pushed, so the return value
is not "whether any event was found". -/
theorem compute_events_true_with_no_event_cex :
    (compute_events_of_vertex (fun _ _ => none) (fun q => q) envC4 []).1 = true
    ∧ (compute_events_of_vertex (fun _ _ => none) (fun q => q) envC4 []).2 = [] := by
  decide

/-- Claim C4 amended: `compute_events_of_vertex` returns `true` exactly when
the vertex is not frozen, whether or not any event was pushed; the driver
keeps the outer time-window loop running while some vertex is unfrozen. -/
theorem compute_events_returns_not_frozen
    (interFn : Segment2 → Segment2 → Option Point2) (sqrtFn : ℚ → ℚ)
    (env : PVertexEnv) (iedges : List IEdgeData) :
    (compute_events_of_vertex interFn sqrtFn env iedges).1 = !env.frozen := by
  cases h : env.frozen
  · by_cases hc : env.hasIEdge = true
    · simp [compute_events_of_vertex, h, hc]
    · simp [compute_events_of_vertex, h, hc]
  · simp [compute_events_of_vertex, h]

/-- Claim C10: a frozen vertex produces `false` and pushes nothing, whatever
its surroundings; hence a support plane all of whose vertices are frozen
contributes no events and a `false` still-running flag in `initialize_queue`. -/
theorem frozen_vertex_no_events
    (interFn : Segment2 → Segment2 → Option Point2) (sqrtFn : ℚ → ℚ)
    (env : PVertexEnv) (iedges : List IEdgeData) (pvertices : List PVertexEnv) :
    (env.frozen = true →
      compute_events_of_vertex interFn sqrtFn env iedges = (false, []))
    ∧ ((∀ v ∈ pvertices, v.frozen = true) →
      seed_queue_for_plane interFn sqrtFn iedges pvertices = (false, [])) := by
  constructor
  · intro h
    simp [compute_events_of_vertex, h]
  · intro hall
    induction pvertices with
    | nil => rfl
    | cons v vs ih =>
      have hv : v.frozen = true := hall v (List.mem_cons_self v vs)
      have h1 : compute_events_of_vertex interFn sqrtFn v iedges = (false, []) := by
        simp [compute_events_of_vertex, hv]
      have ih2 := ih (fun w hw => hall w (List.mem_cons_of_mem v hw))
      simpa [seed_queue_for_plane, h1] using ih2

/-- Fixture: a frozen vertex. -/
def envFrozen : PVertexEnv :=
  PVertexEnv.mk 9 true false (Point2.mk 0 0) (Point2.mk 0 0) 1 0 1
    nbInactive nbInactive none none ivInactive ivInactive

/-- Witness for C10 at the frozen fixture. -/
theorem frozen_vertex_no_events_witness :
    compute_events_of_vertex (fun _ _ => none) (fun q => q) envFrozen [] = (false, [])
    ∧ seed_queue_for_plane (fun _ _ => none) (fun q => q) [] [envFrozen] = (false, []) :=
  have h := frozen_vertex_no_events (fun _ _ => none) (fun q => q) envFrozen [] [envFrozen]
  ⟨h.1 rfl, h.2 (by intro v hv; rcases List.mem_singleton.mp hv with rfl; rfl)⟩

/-! ## `apply` on a `pvertex_to_pvertex` event -/

/-- Calls made by `apply` on the shared Data Structure and Event Queue, with
participants identified by stable ids. -/
inductive DSAction where
  | removeEventsOfPVertex (v : Nat)
  | removeEventsOfIEdge (iedgeId plane : Nat)
  | transferVertexCall (v w : Nat)
  | computeEventsFor (vs : List Nat)
deriving DecidableEq

/-- Outcome of an `apply` branch: normal completion, or a failing
`CGAL_assertion` that aborts the run. -/
inductive BranchOutcome where
  | ok
  | fatalAssertion (msg : String)
deriving DecidableEq

/-- Snapshot needed by the `pvertex_to_pvertex` branch of `apply`
(lines 779-823): the two vertices with their support planes, their
constraint status at the event, the result of `transfer_vertex`, the
constraint IEdges seen after the transfer (or after its failure), and
the third vertex of the resulting triangle. -/
structure PPEnv where
  pvertex : Nat
  pvertexPlane : Nat
  pother : Nat
  potherPlane : Nat
  pvertexHasIEdge : Bool
  potherHasIEdge : Bool
  transferResult : Bool
  pvertexIEdgeAfter : Option Nat
  potherIEdgeAfter : Option Nat
  pthird : Nat
  pthirdPlane : Nat
  pthirdIEdge : Option Nat
  pvertexIEdgeNoTransfer : Option Nat
deriving DecidableEq

/-- Shallow embedding of the `pvertex_to_pvertex` branch of `apply`
(lines 779-823): both vertices' pending events are removed, then
`CGAL_assertion(has_iedge(pvertex))` is checked; two constrained vertices
meeting hits the unimplemented-case assertion; otherwise `transfer_vertex`
runs and, depending on its result, the follow-up event removals and
recomputations are issued. -/
def applyPVertexToPVertex (env : PPEnv) : List DSAction × BranchOutcome :=
  let acts := [DSAction.removeEventsOfPVertex env.pvertex,
               DSAction.removeEventsOfPVertex env.pother]
  if env.pvertexHasIEdge = false then
    (acts, BranchOutcome.fatalAssertion "ASSERTION FAILURE: has_iedge(pvertex)")
  else if env.potherHasIEdge = true then
    (acts, BranchOutcome.fatalAssertion "TODO: ADD CASE TWO CONSTRAINED PVERTICES MEET!")
  else
    let acts2 := acts ++ [DSAction.transferVertexCall env.pvertex env.pother]
    if env.transferResult = true then
      (acts2
        ++ (match env.pvertexIEdgeAfter with
            | some ie => [DSAction.removeEventsOfIEdge ie env.pvertexPlane]
            | none => [])
        ++ (match env.potherIEdgeAfter with
            | some ie => [DSAction.removeEventsOfIEdge ie env.potherPlane]
            | none => [])
        ++ [DSAction.computeEventsFor [env.pvertex, env.pother]]
        ++ (match env.pthirdIEdge with
            | some ie => [DSAction.removeEventsOfIEdge ie env.pthirdPlane]
            | none => [])
        ++ [DSAction.computeEventsFor [env.pthird]], BranchOutcome.ok)
    else
      (acts2
        ++ (match env.pvertexIEdgeNoTransfer with
            | some ie => [DSAction.removeEventsOfIEdge ie env.pvertexPlane]
            | none => [])
        ++ [DSAction.computeEventsFor [env.pvertex]], BranchOutcome.ok)

/-- Claim C7: when both vertices of a `pvertex_to_pvertex` event are
constrained, the branch aborts on the unimplemented-case assertion after
having removed only the two vertices' pending events: no transfer, no event
recomputation, no other mutation, and no silent continuation. -/
theorem two_constrained_pvertices_meet_fatal (env : PPEnv)
    (h1 : env.pvertexHasIEdge = true) (h2 : env.potherHasIEdge = true) :
    applyPVertexToPVertex env =
      ([DSAction.removeEventsOfPVertex env.pvertex,
        DSAction.removeEventsOfPVertex env.pother],
       BranchOutcome.fatalAssertion "TODO: ADD CASE TWO CONSTRAINED PVERTICES MEET!") := by
  simp [applyPVertexToPVertex, h1, h2]

/-- Witness for C7 at a concrete snapshot where both vertices carry an IEdge. -/
theorem two_constrained_pvertices_meet_fatal_witness :
    applyPVertexToPVertex
        (PPEnv.mk 1 10 2 11 true true true none none 3 10 none none) =
      ([DSAction.removeEventsOfPVertex 1, DSAction.removeEventsOfPVertex 2],
       BranchOutcome.fatalAssertion "TODO: ADD CASE TWO CONSTRAINED PVERTICES MEET!") :=
  two_constrained_pvertices_meet_fatal
    (PPEnv.mk 1 10 2 11 true true true none none 3 10 none none) rfl rfl

/-! ## `apply` on a `pvertex_to_iedge` event: choosing the two-vertex branch -/

/-- `are_parallel` (lines 707-726): approximate slope comparison with a fixed
relative tolerance of `1e-5`; near-vertical segments get the sentinel slope
`100000`. -/
def are_parallel (seg1 seg2 : Segment2) : Bool :=
  let tol : ℚ := 1 / 100000
  let d1 := seg1.target.x - seg1.source.x
  let d2 := seg2.target.x - seg2.source.x
  let m1 : ℚ := if tol < |d1| then (seg1.target.y - seg1.source.y) / d1 else 100000
  let m2 : ℚ := if tol < |d2| then (seg2.target.y - seg2.source.y) / d2 else 100000
  decide (|m1 - m2| < tol)

/-- Snapshot of one of the two boundary neighbors `prev`/`next` inside the
`pvertex_to_iedge` branch: whether `iedge(pother) != null_iedge()` and the
neighbor's position at the event time. -/
structure PINeighbor where
  constrained : Bool
  posAtTime : Point2
deriving DecidableEq

/-- The loop of the `pvertex_to_iedge` branch over `{prev, next}`
(lines 834-913): the two-vertex simultaneous-crossing treatment is taken for
the first neighbor such that both the event vertex and the neighbor are free
and the boundary segment from the neighbor to the vertex is parallel to the
intersection edge; `some i` selects neighbor `i`, `none` means the loop falls
through (`done` stays false). -/
def selectTwoVertexNeighbor (pvConstrained : Bool) (pvPos : Point2)
    (segEdge : Segment2) : List PINeighbor → Option Nat
  | [] => none
  | n :: rest =>
    let seg := Segment2.mk n.posAtTime pvPos
    let bothAreFree := pvConstrained = false ∧ n.constrained = false
    if bothAreFree ∧ are_parallel seg segEdge = true then some 0
    else (selectTwoVertexNeighbor pvConstrained pvPos segEdge rest).map (fun j => j + 1)

/-- Dispatch of a `pvertex_to_iedge` event: the two-vertex simultaneous
crossing on the selected neighbor when the loop finds one, else the
single-vertex crossing path (`!done` block, lines 915-958). -/
inductive PIPath where
  | twoVertex (neighborIdx : Nat)
  | singleVertex
deriving DecidableEq

/-- Which path `apply` takes for a `pvertex_to_iedge` event. -/
def pvertexToIedgePath (pvConstrained : Bool) (pvPos : Point2)
    (segEdge : Segment2) (neighbors : List PINeighbor) : PIPath :=
  match selectTwoVertexNeighbor pvConstrained pvPos segEdge neighbors with
  | some i => PIPath.twoVertex i
  | none => PIPath.singleVertex

theorem selectTwoVertexNeighbor_some (pvConstrained : Bool) (pvPos : Point2)
    (segEdge : Segment2) :
    ∀ (neighbors : List PINeighbor) (i : Nat),
      selectTwoVertexNeighbor pvConstrained pvPos segEdge neighbors = some i →
      pvConstrained = false ∧ ∃ h : i < neighbors.length,
        (neighbors.get ⟨i, h⟩).constrained = false := by
  intro neighbors
  induction neighbors with
  | nil => intro i h; cases h
  | cons n rest ih =>
    intro i h
    dsimp [selectTwoVertexNeighbor] at h
    by_cases hc : (pvConstrained = false ∧ n.constrained = false)
        ∧ are_parallel (Segment2.mk n.posAtTime pvPos) segEdge = true
    · rw [if_pos hc] at h
      cases h
      exact ⟨hc.1.1, Nat.succ_pos rest.length, hc.1.2⟩
    · rw [if_neg hc] at h
      rcases Option.map_eq_some.mp h with ⟨j, hj, rfl⟩
      rcases ih j hj with ⟨hpv, hlt, hfree⟩
      exact ⟨hpv, Nat.succ_lt_succ hlt, hfree⟩

/-- Claim C9: the two-vertex simultaneous-crossing branch is taken only when
both the event vertex and the selected neighbor are free; whenever the event
vertex is constrained the single-vertex path is taken, and a constrained
neighbor is never the selected one, however parallel the boundary segment is
to the intersection edge. -/
theorem two_vertex_branch_requires_both_free (pvConstrained : Bool) (pvPos : Point2)
    (segEdge : Segment2) (neighbors : List PINeighbor) :
    (∀ i, pvertexToIedgePath pvConstrained pvPos segEdge neighbors = PIPath.twoVertex i →
      pvConstrained = false ∧ ∃ h : i < neighbors.length,
        (neighbors.get ⟨i, h⟩).constrained = false)
    ∧ (pvConstrained = true →
      pvertexToIedgePath pvConstrained pvPos segEdge neighbors = PIPath.singleVertex)
    ∧ (∀ i (h : i < neighbors.length), (neighbors.get ⟨i, h⟩).constrained = true →
      pvertexToIedgePath pvConstrained pvPos segEdge neighbors ≠ PIPath.twoVertex i) := by
  have key : ∀ (i : Nat),
      selectTwoVertexNeighbor pvConstrained pvPos segEdge neighbors = some i →
      pvConstrained = false ∧ ∃ h : i < neighbors.length,
        (neighbors.get ⟨i, h⟩).constrained = false :=
    selectTwoVertexNeighbor_some pvConstrained pvPos segEdge neighbors
  refine ⟨?_, ?_, ?_⟩
  · intro i hp
    dsimp [pvertexToIedgePath] at hp
    cases hsel : selectTwoVertexNeighbor pvConstrained pvPos segEdge neighbors with
    | none => rw [hsel] at hp; cases hp
    | some j =>
      rw [hsel] at hp
      cases hp
      exact key _ hsel
  · intro hpv
    dsimp [pvertexToIedgePath]
    cases hsel : selectTwoVertexNeighbor pvConstrained pvPos segEdge neighbors with
    | none => rfl
    | some j =>
      have := (key j hsel).1
      rw [hpv] at this
      cases this
  · intro i h hcon hp
    dsimp [pvertexToIedgePath] at hp
    cases hsel : selectTwoVertexNeighbor pvConstrained pvPos segEdge neighbors with
    | none => rw [hsel] at hp; cases hp
    | some j =>
      rw [hsel] at hp
      cases hp
      rcases key i hsel with ⟨_, hlt, hfree⟩
      rw [hcon] at hfree
      cases hfree

/-- Witness for C9: a constrained event vertex with a perfectly parallel
boundary segment is still dispatched to the single-vertex path, and a
constrained parallel neighbor is never selected. -/
theorem two_vertex_branch_requires_both_free_witness :
    pvertexToIedgePath true (Point2.mk 1 0)
        (Segment2.mk (Point2.mk 0 1) (Point2.mk 1 1))
        [PINeighbor.mk false (Point2.mk 0 0)] = PIPath.singleVertex
    ∧ pvertexToIedgePath false (Point2.mk 1 0)
        (Segment2.mk (Point2.mk 0 1) (Point2.mk 1 1))
        [PINeighbor.mk true (Point2.mk 0 0)] ≠ PIPath.twoVertex 0 :=
  ⟨(two_vertex_branch_requires_both_free true (Point2.mk 1 0)
      (Segment2.mk (Point2.mk 0 1) (Point2.mk 1 1))
      [PINeighbor.mk false (Point2.mk 0 0)]).2.1 rfl,
   (two_vertex_branch_requires_both_free false (Point2.mk 1 0)
      (Segment2.mk (Point2.mk 0 1) (Point2.mk 1 1))
      [PINeighbor.mk true (Point2.mk 0 0)]).2.2 0 (by decide) rfl⟩

end KSR

namespace Distance3

/-! ## `squared_distance(Point_3, Triangle_3)` (squared_distance_Point_3_Triangle_3.h) -/

/-- A 3D point with rational coordinates (exact kernel). -/
structure Point3 where
  x : ℚ
  y : ℚ
  z : ℚ
deriving DecidableEq

/-- A 3D vector. -/
structure Vector3 where
  x : ℚ
  y : ℚ
  z : ℚ
deriving DecidableEq

/-- `construct_vector_3(a, b)`: the vector from `a` to `b`. -/
def vector3 (a b : Point3) : Vector3 :=
  Vector3.mk (b.x - a.x) (b.y - a.y) (b.z - a.z)

/-- `wdot`: scalar product. -/
def wdot (u v : Vector3) : ℚ :=
  u.x * v.x + u.y * v.y + u.z * v.z

/-- `wcross`: cross product. -/
def wcross (u v : Vector3) : Vector3 :=
  Vector3.mk (u.y * v.z - u.z * v.y) (u.z * v.x - u.x * v.z) (u.x * v.y - u.y * v.x)

/-- `CGAL::NULL_VECTOR`. -/
def nullVector3 : Vector3 :=
  Vector3.mk 0 0 0

/-- `on_left_of_triangle_edge` (lines 29-47): `pt` is on the non-positive side
of the plane spanned by the edge `(ep0, ep1)` and the triangle normal. -/
def on_left_of_triangle_edge (pt : Point3) (normal : Vector3) (ep0 ep1 : Point3) : Bool :=
  decide (wdot (wcross (vector3 ep0 ep1) normal) (vector3 ep0 pt) ≤ 0)

/-- Squared distance between two 3D points. -/
def squaredDistance3 (a b : Point3) : ℚ :=
  (b.x - a.x) ^ 2 + (b.y - a.y) ^ 2 + (b.z - a.z) ^ 2

/-- Modelled from the spec: `squared_distance_to_plane` of
internal/squared_distance_utils_3.h is a geometric-kernel primitive outside
the verified sources ("distance computations ... assumed as a correct,
already-available capability"); it is the squared distance from a point at
offset `diff` to the plane through the origin with the given normal,
`dot(normal, diff)^2 / dot(normal, normal)`. -/
def squared_distance_to_plane (normal diff : Vector3) : ℚ :=
  (wdot normal diff) ^ 2 / wdot normal normal

/-- Modelled from the spec: the point-segment squared distance of
squared_distance_Point_3_Segment_3.h is a geometric-kernel primitive outside
the verified sources; it is the squared distance from `pt` to the nearest
point of the segment `[a, b]` (an endpoint when the projection parameter
falls outside the segment, the orthogonal distance to the line otherwise). -/
def squaredDistancePointSegment (pt a b : Point3) : ℚ :=
  let d := vector3 a b
  let w := vector3 a pt
  let t := wdot w d
  if t ≤ 0 then squaredDistance3 pt a
  else if wdot d d ≤ t then squaredDistance3 pt b
  else squaredDistance3 pt a - t ^ 2 / wdot d d

/-- Shallow embedding of `squared_distance_to_triangle` (lines 49-87): when
the triangle normal is non-null and the projection of `pt` falls inside the
triangle, the squared distance to the supporting plane is returned with
`inside = true`; otherwise — including the degenerate collinear triangle with
null normal — the minimum of the squared distances to the three edge segments
is returned with `inside = false`. -/
def squared_distance_to_triangle (pt t0 t1 t2 : Point3) : ℚ × Bool :=
  let e1 := vector3 t0 t1
  let oe3 := vector3 t0 t2
  let normal := wcross e1 oe3
  if normal ≠ nullVector3
      ∧ on_left_of_triangle_edge pt normal t0 t1 = true
      ∧ on_left_of_triangle_edge pt normal t1 t2 = true
      ∧ on_left_of_triangle_edge pt normal t2 t0 = true then
    (squared_distance_to_plane normal (vector3 t0 pt), true)
  else
    let d1 := squaredDistancePointSegment pt t2 t0
    let d2 := squaredDistancePointSegment pt t1 t2
    let d3 := squaredDistancePointSegment pt t0 t1
    (min (min d1 d2) d3, false)

/-- The degenerate fallback as the spec words it: "summing edge-distances". -/
def spec_sum_of_edge_distances (pt t0 t1 t2 : Point3) : ℚ :=
  squaredDistancePointSegment pt t2 t0 + squaredDistancePointSegment pt t1 t2
    + squaredDistancePointSegment pt t0 t1

/-- Counterexample to claim C8 as stated: for the collinear triangle
`(0,0,0), (1,0,0), (2,0,0)` (null normal) and the point `(0,1,0)`, the code
returns the minimum of the edge distances, `1`, not the sum of the edge
distances, `4`. -/
theorem degenerate_triangle_min_not_sum_cex :
    wcross (vector3 (Point3.mk 0 0 0) (Point3.mk 1 0 0))
        (vector3 (Point3.mk 0 0 0) (Point3.mk 2 0 0)) = nullVector3
    ∧ (squared_distance_to_triangle (Point3.mk 0 1 0) (Point3.mk 0 0 0)
        (Point3.mk 1 0 0) (Point3.mk 2 0 0)).1 = 1
    ∧ spec_sum_of_edge_distances (Point3.mk 0 1 0) (Point3.mk 0 0 0)
        (Point3.mk 1 0 0) (Point3.mk 2 0 0) = 4
    ∧ (1 : ℚ) ≠ 4 := by
  refine ⟨by norm_num [wcross, vector3, nullVector3], ?_, ?_, by norm_num⟩
  · norm_num [squared_distance_to_triangle, wcross, vector3, nullVector3,
      on_left_of_triangle_edge, wdot, squaredDistancePointSegment, squaredDistance3]
  · norm_num [spec_sum_of_edge_distances, squaredDistancePointSegment,
      vector3, wdot, squaredDistance3]

/-- Claim C8 amended: for a triangle whose normal is the null vector,
`squared_distance_to_triangle` does not use the projection onto the
supporting plane; it recovers locally by returning the minimum (not the sum)
of the squared distances to the three edge segments, with `inside` left
false, and no error is raised (the function totally returns a value). -/
theorem degenerate_triangle_edge_min_fallback (pt t0 t1 t2 : Point3)
    (h : wcross (vector3 t0 t1) (vector3 t0 t2) = nullVector3) :
    squared_distance_to_triangle pt t0 t1 t2 =
      (min (min (squaredDistancePointSegment pt t2 t0)
          (squaredDistancePointSegment pt t1 t2))
        (squaredDistancePointSegment pt t0 t1), false) := by
  have hcond : ¬ (wcross (vector3 t0 t1) (vector3 t0 t2) ≠ nullVector3
      ∧ on_left_of_triangle_edge pt (wcross (vector3 t0 t1) (vector3 t0 t2)) t0 t1 = true
      ∧ on_left_of_triangle_edge pt (wcross (vector3 t0 t1) (vector3 t0 t2)) t1 t2 = true
      ∧ on_left_of_triangle_edge pt (wcross (vector3 t0 t1) (vector3 t0 t2)) t2 t0 = true) := by
    intro hc
    exact hc.1 h
  simp only [squared_distance_to_triangle]
  rw [if_neg hcond]

/-- Witness for the amended C8 at the collinear fixture. -/
theorem degenerate_triangle_edge_min_fallback_witness :
    squared_distance_to_triangle (Point3.mk 0 1 0) (Point3.mk 0 0 0)
        (Point3.mk 3 0 0) (Point3.mk 6 0 0) =
      (min (min (squaredDistancePointSegment (Point3.mk 0 1 0)
          (Point3.mk 6 0 0) (Point3.mk 0 0 0))
        (squaredDistancePointSegment (Point3.mk 0 1 0)
          (Point3.mk 3 0 0) (Point3.mk 6 0 0)))
        (squaredDistancePointSegment (Point3.mk 0 1 0)
          (Point3.mk 0 0 0) (Point3.mk 3 0 0)), false) :=
  degenerate_triangle_edge_min_fallback (Point3.mk 0 1 0) (Point3.mk 0 0 0)
    (Point3.mk 3 0 0) (Point3.mk 6 0 0)
    (by norm_num [wcross, vector3, nullVector3])

end Distance3
